import Mathlib

/-!
Verification of the FBX loader core of `src/loaders/FBXLoader.ts`
(three-stdlib): connection graph, registries, and scene reconstruction,
shallowly embedded in Lean.  Object IDs are integers; numeric payloads that
the loader only copies (matrices, weights, plane distances) are carried as
exact rationals, since none of the verified paths performs arithmetic on
them.  Fallible JS property accesses (reading a field of `undefined`,
assigning to a `const` binding) are modelled with `Except JsError`.
-/

/-- Runtime failures of the embedded JS: reading a property of undefined,
or assigning to a const binding. -/
inductive JsError where
  | typeError
deriving DecidableEq, Repr

/-- One raw connection triple from the Connections section of the tree:
`rawConnection[0]` (fromID), `rawConnection[1]` (toID) and the optional
relationship label `rawConnection[2]`. -/
structure FBXConnection where
  fromID : Int
  toID : Int
  relationship : Option String
deriving DecidableEq, Repr

/-- One edge entry `{ ID, relationship }` as pushed into a parents or
children list by parseConnections. -/
structure ConnEdge where
  ID : Int
  relationship : Option String
deriving DecidableEq, Repr

/-- The per-ID record `{ parents: [], children: [] }` of the connection map. -/
structure Relationships where
  parents : List ConnEdge
  children : List ConnEdge
deriving DecidableEq, Repr

/-- The connection graph is a JS Map from object ID to its record; the loader
only observes it through has/get, so it is modelled as a partial function. -/
abbrev ConnectionMap : Type := Int → Option Relationships

def emptyRelationships : Relationships := ⟨[], []⟩

/-- First half of the loop body of parseConnections (FBXLoader.ts 88-96):
insert a default entry for fromID when missing, then push
`{ ID: toID, relationship }` onto its parents list. -/
def pushParent (m : ConnectionMap) (c : FBXConnection) : ConnectionMap :=
  fun k =>
    if k = c.fromID then
      let e := (m c.fromID).getD emptyRelationships
      some { e with parents := e.parents ++ [⟨c.toID, c.relationship⟩] }
    else m k

/-- Second half of the loop body (FBXLoader.ts 98-106): insert a default entry
for toID when missing, then push `{ ID: fromID, relationship }` onto its
children list. -/
def pushChild (m : ConnectionMap) (c : FBXConnection) : ConnectionMap :=
  fun k =>
    if k = c.toID then
      let e := (m c.toID).getD emptyRelationships
      some { e with children := e.children ++ [⟨c.fromID, c.relationship⟩] }
    else m k

def processConnection (m : ConnectionMap) (c : FBXConnection) : ConnectionMap :=
  pushChild (pushParent m c) c

/-- FBXTreeParser.parseConnections (FBXLoader.ts 77-111): fold the raw
triples over an initially empty map. -/
def parseConnections (raws : List FBXConnection) : ConnectionMap :=
  raws.foldl processConnection (fun _ => none)

/-- Input-order projection of the raw triples onto the parents list that
parseConnections builds for a given ID. -/
def parentsOf (id : Int) (raws : List FBXConnection) : List ConnEdge :=
  (raws.filter (fun c => c.fromID == id)).map (fun c => ⟨c.toID, c.relationship⟩)

/-- Input-order projection of the raw triples onto the children list that
parseConnections builds for a given ID. -/
def childrenOf (id : Int) (raws : List FBXConnection) : List ConnEdge :=
  (raws.filter (fun c => c.toID == id)).map (fun c => ⟨c.fromID, c.relationship⟩)

/-- Whether a triple mentions the given ID as either endpoint. -/
def touches (id : Int) (c : FBXConnection) : Bool :=
  c.fromID == id || c.toID == id

lemma parseConnections_append (raws : List FBXConnection) (c : FBXConnection) :
    parseConnections (raws ++ [c]) = processConnection (parseConnections raws) c := by
  simp [parseConnections, List.foldl_append]

lemma parentsOf_append (id : Int) (l : List FBXConnection) (c : FBXConnection) :
    parentsOf id (l ++ [c]) =
      parentsOf id l ++ (if c.fromID == id then [⟨c.toID, c.relationship⟩] else []) := by
  by_cases h : c.fromID = id <;>
    simp [parentsOf, List.filter_append, h]

lemma childrenOf_append (id : Int) (l : List FBXConnection) (c : FBXConnection) :
    childrenOf id (l ++ [c]) =
      childrenOf id l ++ (if c.toID == id then [⟨c.fromID, c.relationship⟩] else []) := by
  by_cases h : c.toID = id <;>
    simp [childrenOf, List.filter_append, h]

lemma parentsOf_eq_nil (id : Int) (l : List FBXConnection)
    (h : l.all (fun c => !touches id c)) : parentsOf id l = [] := by
  simp only [List.all_eq_true, Bool.not_eq_true] at h
  simp only [parentsOf, List.map_eq_nil_iff, List.filter_eq_nil_iff]
  intro c hc
  have := h c hc
  simp [touches] at this
  simp [this.1]

lemma childrenOf_eq_nil (id : Int) (l : List FBXConnection)
    (h : l.all (fun c => !touches id c)) : childrenOf id l = [] := by
  simp only [List.all_eq_true, Bool.not_eq_true] at h
  simp only [childrenOf, List.map_eq_nil_iff, List.filter_eq_nil_iff]
  intro c hc
  have := h c hc
  simp [touches] at this
  simp [this.2]

/-- Full characterization of the connection graph: an ID mentioned by some
triple is mapped to exactly the input-order projections of the triples; an
ID mentioned by no triple is absent. -/
lemma parseConnections_eq (raws : List FBXConnection) (id : Int) :
    parseConnections raws id =
      if raws.any (touches id) then some ⟨parentsOf id raws, childrenOf id raws⟩
      else none := by
  induction raws using List.reverseRecOn with
  | nil => simp [parseConnections, parentsOf, childrenOf]
  | append_singleton l c ih =>
    rw [parseConnections_append]
    by_cases hf : id = c.fromID <;> by_cases ht : id = c.toID
    · -- id is both endpoints (self loop)
      simp only [processConnection, pushChild, pushParent, if_pos ht, ← hf, ← ht, if_pos rfl]
      rw [ih]
      by_cases hany : l.any (touches id)
      · simp [hany, parentsOf_append, childrenOf_append, ← hf, ← ht,
          emptyRelationships]
      · have hall : l.all (fun c => !touches id c) := by
          simpa [List.any_eq_true, List.all_eq_true] using hany
        simp [hany, parentsOf_append, childrenOf_append, ← hf, ← ht,
          parentsOf_eq_nil id l hall, childrenOf_eq_nil id l hall, emptyRelationships,
          touches]
    · -- id = fromID only
      have hne : ¬ id = c.toID := ht
      simp only [processConnection, pushChild, pushParent, if_neg hne, ← hf, if_pos rfl]
      rw [ih]
      by_cases hany : l.any (touches id)
      · have : (l ++ [c]).any (touches id) := by simp [List.any_append, hany]
        simp [hany, this, parentsOf_append, childrenOf_append, ← hf,
          (by simpa [eq_comm] using hne : ¬ c.toID = id)]
      · have hall : l.all (fun c => !touches id c) := by
          simpa [List.any_eq_true, List.all_eq_true] using hany
        simp [hany, parentsOf_append, childrenOf_append, ← hf,
          (by simpa [eq_comm] using hne : ¬ c.toID = id),
          parentsOf_eq_nil id l hall, childrenOf_eq_nil id l hall, emptyRelationships,
          touches]
    · -- id = toID only
      have hne : ¬ id = c.fromID := hf
      simp only [processConnection, pushChild, pushParent, if_neg hne, ← ht, if_pos rfl]
      rw [ih]
      by_cases hany : l.any (touches id)
      · simp [hany, parentsOf_append, childrenOf_append, ← ht,
          (by simpa [eq_comm] using hne : ¬ c.fromID = id)]
      · have hall : l.all (fun c => !touches id c) := by
          simpa [List.any_eq_true, List.all_eq_true] using hany
        simp [hany, parentsOf_append, childrenOf_append, ← ht,
          (by simpa [eq_comm] using hne : ¬ c.fromID = id),
          parentsOf_eq_nil id l hall, childrenOf_eq_nil id l hall, emptyRelationships,
          touches]
    · -- id is neither endpoint
      simp only [processConnection, pushChild, pushParent, if_neg ht, if_neg hf]
      rw [ih]
      have h1 : ¬ c.fromID = id := fun h => hf h.symm
      have h2 : ¬ c.toID = id := fun h => ht h.symm
      simp [parentsOf_append, childrenOf_append, h1, h2, List.any_append, touches]

/-- C1: for every raw connection triple (fromID, toID, label) processed by
parseConnections, the resulting graph maps fromID to an entry whose parents
list contains (toID, label) and toID to an entry whose children list
contains (fromID, label); both entries exist, and each entry holds exactly
the input-order projections of the raw triples, so appended edges follow
input order. -/
theorem c1_connection_graph (raws : List FBXConnection) (c : FBXConnection)
    (hc : c ∈ raws) :
    ∃ rf rt, parseConnections raws c.fromID = some rf ∧
      parseConnections raws c.toID = some rt ∧
      (⟨c.toID, c.relationship⟩ : ConnEdge) ∈ rf.parents ∧
      (⟨c.fromID, c.relationship⟩ : ConnEdge) ∈ rt.children ∧
      rf.parents = parentsOf c.fromID raws ∧
      rf.children = childrenOf c.fromID raws ∧
      rt.parents = parentsOf c.toID raws ∧
      rt.children = childrenOf c.toID raws := by
  have hanyf : raws.any (touches c.fromID) = true := by
    simp only [List.any_eq_true]
    exact ⟨c, hc, by simp [touches]⟩
  have hanyt : raws.any (touches c.toID) = true := by
    simp only [List.any_eq_true]
    exact ⟨c, hc, by simp [touches]⟩
  refine ⟨⟨parentsOf c.fromID raws, childrenOf c.fromID raws⟩,
    ⟨parentsOf c.toID raws, childrenOf c.toID raws⟩, ?_, ?_, ?_, ?_, rfl, rfl, rfl, rfl⟩
  · rw [parseConnections_eq]; simp [hanyf]
  · rw [parseConnections_eq]; simp [hanyt]
  · simp only [parentsOf, List.mem_map]
    exact ⟨c, by simp [List.mem_filter, hc], rfl⟩
  · simp only [childrenOf, List.mem_map]
    exact ⟨c, by simp [List.mem_filter, hc], rfl⟩

/-- Witness for C1 on a concrete two-triple input. -/
theorem c1_connection_graph_witness :
    ∃ rf rt, parseConnections [⟨1, 2, some ("OO")⟩, ⟨3, 2, none⟩] 3 = some rf ∧
      parseConnections [⟨1, 2, some ("OO")⟩, ⟨3, 2, none⟩] 2 = some rt ∧
      (⟨2, none⟩ : ConnEdge) ∈ rf.parents ∧
      (⟨3, none⟩ : ConnEdge) ∈ rt.children ∧
      rf.parents = parentsOf 3 [⟨1, 2, some ("OO")⟩, ⟨3, 2, none⟩] ∧
      rf.children = childrenOf 3 [⟨1, 2, some ("OO")⟩, ⟨3, 2, none⟩] ∧
      rt.parents = parentsOf 2 [⟨1, 2, some ("OO")⟩, ⟨3, 2, none⟩] ∧
      rt.children = childrenOf 2 [⟨1, 2, some ("OO")⟩, ⟨3, 2, none⟩] :=
  c1_connection_graph [⟨1, 2, some ("OO")⟩, ⟨3, 2, none⟩] ⟨3, 2, none⟩ (by decide)

/-- Hierarchy assembly for one constructed model (FBXTreeParser.parseScene,
FBXLoader.ts 664-678): the loop walks the connection-graph parent list and,
for every entry that resolves in modelMap, calls Object3D.add, which
re-parents the model (three.js add detaches the object from any previous
parent; add is a no-op when the target is the model itself).  `modelIDs`
are the keys of modelMap; the result is the final parent ID, `none` meaning
the model keeps `parent === null` and is attached to the scene root. -/
def attachModel (modelIDs : List Int) (id : Int) (parentConns : List Int) : Option Int :=
  parentConns.foldl
    (fun acc p => if modelIDs.contains p && p != id then some p else acc) none

/-- Stated from the words of the spec for comparison: the first entry in the
parent list that resolves to a constructed model. -/
def firstResolvedParent (modelIDs : List Int) (id : Int) (parentConns : List Int) :
    Option Int :=
  parentConns.find? (fun p => modelIDs.contains p && p != id)

/-- The parent the code actually keeps: the last entry in the parent list that
resolves to a constructed model. -/
def lastResolvedParent (modelIDs : List Int) (id : Int) (parentConns : List Int) :
    Option Int :=
  parentConns.reverse.find? (fun p => modelIDs.contains p && p != id)

lemma foldl_overwrite_eq_find_reverse (p : Int → Bool) (l : List Int)
    (acc : Option Int) :
    l.foldl (fun a x => if p x then some x else a) acc =
      (l.reverse.find? p).elim acc some := by
  induction l generalizing acc with
  | nil => simp
  | cons x xs ih =>
    simp only [List.foldl_cons, List.reverse_cons, ih, List.find?_append]
    cases h : xs.reverse.find? p with
    | some y => simp
    | none =>
      by_cases hx : p x <;> simp [List.find?, hx]

/-- Counterexample to C2 as stated: model 0 has parent connections [1, 2] and
both resolve in modelMap; the code leaves the node attached to parent 2 (the
last resolved), not parent 1 (the first resolved). -/
theorem c2_first_parent_counterexample :
    attachModel [1, 2] 0 [1, 2] = some 2 ∧
      firstResolvedParent [1, 2] 0 [1, 2] = some 1 ∧
      attachModel [1, 2] 0 [1, 2] ≠ firstResolvedParent [1, 2] 0 [1, 2] := by
  decide

/-- C2 (amended): a constructed model node is attached as a child of the LAST
entry in its connection-graph parent list that resolves to a constructed
model; when no entry resolves the result is none, i.e. the model keeps
`parent === null` and is added directly to the scene root. -/
theorem c2_attach_last_resolved (modelIDs : List Int) (id : Int)
    (parentConns : List Int) :
    attachModel modelIDs id parentConns = lastResolvedParent modelIDs id parentConns ∧
      (attachModel modelIDs id parentConns = none ↔
        ∀ p ∈ parentConns, ¬(modelIDs.contains p ∧ p ≠ id)) := by
  have hmain : attachModel modelIDs id parentConns =
      lastResolvedParent modelIDs id parentConns := by
    unfold attachModel lastResolvedParent
    rw [foldl_overwrite_eq_find_reverse]
    cases h : parentConns.reverse.find? (fun p => modelIDs.contains p && p != id) <;> simp
  refine ⟨hmain, ?_⟩
  rw [hmain]
  unfold lastResolvedParent
  rw [List.find?_eq_none]
  constructor
  · intro h p hp
    have := h p (by simpa using hp)
    simpa [not_and_or] using this
  · intro h p hp
    have := h p (by simpa using hp)
    simpa [not_and_or] using this

/-- Camera node attribute (FBXTree.Objects.NodeAttribute entry) with the
fields read by createCamera; each field is the `.value` of the property,
absent fields are `none`. -/
structure CameraAttribute where
  cameraProjectionType : Option Int
  nearPlane : Option Rat
  farPlane : Option Rat
  aspectWidth : Option Rat
  aspectHeight : Option Rat
  fieldOfView : Option Rat
  focalLength : Option Rat
deriving DecidableEq, Repr

/-- Attribute resolution at the top of createCamera (FBXLoader.ts 809-815):
each child that resolves in NodeAttribute overwrites the previous one, so
the last resolving child wins. -/
def resolveNodeAttribute (children : List ConnEdge)
    (nodeAttrs : Int → Option CameraAttribute) : Option CameraAttribute :=
  children.foldl
    (fun acc ch =>
      match nodeAttrs ch.ID with
      | some a => some a
      | none => acc)
    none

/-- Constructed camera value: a bare Object3D (no attribute resolved), a
PerspectiveCamera, or an OrthographicCamera.  setFocalLength (a three.js
call that recomputes fov from the focal length) is recorded by carrying the
focal length. -/
inductive CameraModel where
  | object3D
  | perspective (fov aspect near far : Rat) (focalLength : Option Rat)
  | orthographic (left right top bottom near far : Rat)
deriving DecidableEq, Repr

/-- FBXTreeParser.createCamera (FBXLoader.ts 805-877).  NOTE, lines 825-833 of
the source: `const nearClippingPlane = 1` and `const farClippingPlane = 1000`
are declared const and then assigned inside the NearPlane / FarPlane guards;
assigning to a const binding is a TypeError in strict-mode JS (and rejected
by tsc), so an attribute that carries NearPlane or FarPlane aborts camera
construction with a runtime error.  The viewport dimensions
(window.innerWidth/innerHeight) are passed as parameters. -/
def createCamera (children : List ConnEdge)
    (nodeAttrs : Int → Option CameraAttribute)
    (viewportW viewportH : Rat) : Except JsError CameraModel :=
  match resolveNodeAttribute children nodeAttrs with
  | none => .ok .object3D
  | some a =>
    let projType : Int := if a.cameraProjectionType = some 1 then 1 else 0
    if a.nearPlane.isSome then .error .typeError
    else if a.farPlane.isSome then .error .typeError
    else
      let nearClippingPlane : Rat := 1
      let farClippingPlane : Rat := 1000
      let w := match a.aspectWidth, a.aspectHeight with
        | some w, some _ => w
        | _, _ => viewportW
      let h := match a.aspectWidth, a.aspectHeight with
        | some _, some h => h
        | _, _ => viewportH
      let aspect := w / h
      let fov := (a.fieldOfView).getD 45
      if projType = 0 then
        .ok (.perspective fov aspect nearClippingPlane farClippingPlane a.focalLength)
      else
        .ok (.orthographic (-w / 2) (w / 2) (h / 2) (-h / 2)
          nearClippingPlane farClippingPlane)

/-- C3 (code bug): whenever the resolved camera NodeAttribute defines
NearPlane (in particular when it defines both NearPlane and FarPlane, as the
claim assumes), createCamera fails with a runtime TypeError because
nearClippingPlane / farClippingPlane are const bindings that the source then
assigns to; no camera with near = NearPlane/1000 and far = FarPlane/1000 is
ever produced. -/
theorem c3_camera_const_reassignment_bug (children : List ConnEdge)
    (nodeAttrs : Int → Option CameraAttribute) (vw vh : Rat) (a : CameraAttribute)
    (hres : resolveNodeAttribute children nodeAttrs = some a)
    (hnear : a.nearPlane.isSome) :
    createCamera children nodeAttrs vw vh = .error .typeError := by
  simp [createCamera, hres, hnear]

/-- Witness for C3: a Camera model whose NodeAttribute child 10 has
NearPlane.value = 2000 and FarPlane.value = 500000 crashes instead of
producing a camera with near = 2 and far = 500. -/
theorem c3_camera_const_reassignment_bug_witness :
    createCamera [⟨10, none⟩]
      (fun k => if k = 10
        then some ⟨none, some 2000, some 500000, none, none, none, none⟩
        else none)
      1 1 = .error .typeError :=
  c3_camera_const_reassignment_bug [⟨10, none⟩]
    (fun k => if k = 10
      then some ⟨none, some 2000, some 500000, none, none, none, none⟩
      else none)
    1 1 ⟨none, some 2000, some 500000, none, none, none, none⟩ (by decide) (by decide)

/-- Entry of FBXTree.Objects.Deformer with the fields read by parseDeformers,
parseSkeleton and parseMorphTargets.  Array payloads (TransformLink.a,
Indexes.a, Weights.a, FullWeights.a) are copied verbatim by the loader and
carried here as rational lists. -/
structure DeformerNode where
  id : Int
  attrName : Option String
  attrType : String
  transformLink : Option (List Rat)
  indexes : Option (List Rat)
  weights : Option (List Rat)
  fullWeights : Option (List Rat)
  deformPercent : Option Rat
deriving DecidableEq, Repr

/-- Raw bone record built by parseSkeleton (FBXLoader.ts 592-599). -/
structure RawBone where
  ID : Int
  indices : List Rat
  weights : List Rat
  transformLink : List Rat
deriving DecidableEq, Repr

/-- FBXTreeParser.parseSkeleton (FBXLoader.ts 584-613), returning the rawBones
list (the bones list starts empty).  A child that does not resolve in the
Deformer catalog makes `boneNode.attrType` a read on undefined; a Cluster
child without TransformLink makes `boneNode.TransformLink.a` such a read, as
does Indexes without Weights. -/
def parseSkeleton (children : List ConnEdge)
    (deformerNodes : Int → Option DeformerNode) : Except JsError (List RawBone) :=
  match children with
  | [] => .ok []
  | child :: rest =>
    match deformerNodes child.ID with
    | none => .error .typeError
    | some boneNode =>
      if boneNode.attrType ≠ "Cluster" then parseSkeleton rest deformerNodes
      else
        match boneNode.transformLink with
        | none => .error .typeError
        | some tl =>
          match boneNode.indexes with
          | none =>
            (parseSkeleton rest deformerNodes).map
              (fun bs => ⟨child.ID, [], [], tl⟩ :: bs)
          | some idx =>
            match boneNode.weights with
            | none => .error .typeError
            | some w =>
              (parseSkeleton rest deformerNodes).map
                (fun bs => ⟨child.ID, idx, w, tl⟩ :: bs)

/-- The raw bone a single connection child contributes: none when the child
is not a Cluster deformer. -/
def rawBoneOf (dn : Int → Option DeformerNode) (ch : ConnEdge) : Option RawBone :=
  match dn ch.ID with
  | none => none
  | some bn =>
    if bn.attrType = "Cluster" then
      some ⟨ch.ID, bn.indexes.getD [],
        if bn.indexes.isSome then bn.weights.getD [] else [],
        bn.transformLink.getD []⟩
    else none

/-- Whether a connection child resolves to a Cluster deformer node. -/
def isClusterChild (dn : Int → Option DeformerNode) (ch : ConnEdge) : Bool :=
  match dn ch.ID with
  | some bn => bn.attrType == "Cluster"
  | none => false

/-- Well-formedness of one skin child: it resolves in the Deformer catalog,
and when it is a Cluster it carries TransformLink and carries Weights
whenever it carries Indexes (otherwise parseSkeleton raises a TypeError). -/
def clusterChildOk (dn : Int → Option DeformerNode) (ch : ConnEdge) : Bool :=
  match dn ch.ID with
  | none => false
  | some bn =>
    if bn.attrType = "Cluster" then
      bn.transformLink.isSome && (!bn.indexes.isSome || bn.weights.isSome)
    else true

lemma parseSkeleton_ok (children : List ConnEdge) (dn : Int → Option DeformerNode)
    (h : children.all (clusterChildOk dn)) :
    parseSkeleton children dn = .ok (children.filterMap (rawBoneOf dn)) := by
  induction children with
  | nil => rfl
  | cons ch rest ih =>
    simp only [List.all_cons, Bool.and_eq_true] at h
    obtain ⟨hch, hrest⟩ := h
    have ihr := ih hrest
    cases hdn : dn ch.ID with
    | none => simp [clusterChildOk, hdn] at hch
    | some bn =>
      simp only [clusterChildOk, hdn] at hch
      by_cases hty : bn.attrType = "Cluster"
      · simp only [if_pos hty, Bool.and_eq_true, Bool.or_eq_true, Bool.not_eq_true] at hch
        obtain ⟨htl, hiw⟩ := hch
        cases htlc : bn.transformLink with
        | none => simp [htlc] at htl
        | some tl =>
          cases hidx : bn.indexes with
          | none =>
            simp [parseSkeleton, hdn, hty, htlc, hidx, ihr, Except.map,
              List.filterMap_cons, rawBoneOf]
          | some idx =>
            have hw : bn.weights.isSome := by
              rcases hiw with hiw | hiw
              · simp [hidx] at hiw
              · exact hiw
            cases hwc : bn.weights with
            | none => simp [hwc] at hw
            | some w =>
              simp [parseSkeleton, hdn, hty, htlc, hidx, hwc, ihr, Except.map,
                List.filterMap_cons, rawBoneOf]
      · simp [parseSkeleton, hdn, hty, ihr, List.filterMap_cons, rawBoneOf]

lemma length_filterMap_eq_countP {α β : Type} (f : α → Option β) (l : List α) :
    (l.filterMap f).length = l.countP (fun a => (f a).isSome) := by
  induction l with
  | nil => rfl
  | cons a l ih =>
    cases h : f a <;> simp [List.filterMap_cons, h, List.countP_cons, ih]

lemma rawBoneOf_isSome (dn : Int → Option DeformerNode) (ch : ConnEdge) :
    (rawBoneOf dn ch).isSome = isClusterChild dn ch := by
  unfold rawBoneOf isClusterChild
  cases dn ch.ID with
  | none => rfl
  | some bn => by_cases hty : bn.attrType = "Cluster" <;> simp [hty]

/-- Constructed three.js Bone node, recording its ID, sanitized name, the
matrixWorld copied from the raw-bone transformLink, and its children. -/
inductive JsBone where
  | mk (ID : Int) (name : String) (matrixWorld : List Rat) (children : List JsBone)

/-- JS `name ? sanitizeNodeName(name) : ...` with the empty name falsy; the
three.js sanitizer (an external collaborator) is a parameter. -/
def jsNameOrEmpty (san : String → String) (name : Option String) : String :=
  match name with
  | none => ""
  | some s => if s = "" then "" else san s

/-- Body of the innermost loop of buildSkeleton (FBXLoader.ts 772-793): a raw
bone whose ID equals the model connection-parent ID replaces the accumulator
with a fresh Bone carrying the previous one (if any) as its only child. -/
def buildSkeletonStep (id : Int) (nm : String) (parentID : Int)
    (bone : Option JsBone) (rawBone : RawBone) : Option JsBone :=
  if rawBone.ID = parentID then
    some (.mk id nm rawBone.transformLink (bone.elim [] (fun sb => [sb])))
  else bone

/-- FBXTreeParser.buildSkeleton (FBXLoader.ts 765-798): iterate the model
connection parents, all skeletons, and each skeleton rawBones list.  The
write of the new bone into `skeleton.bones[i]` is book-keeping for the later
binding pass and does not affect the returned bone. -/
def buildSkeleton (san : String → String) (parents : List ConnEdge)
    (skeletons : List (List RawBone)) (id : Int) (name : Option String) :
    Option JsBone :=
  parents.foldl
    (fun bone parent =>
      skeletons.foldl
        (fun bone skel =>
          skel.foldl (buildSkeletonStep id (jsNameOrEmpty san name) parent.ID) bone)
        bone)
    none

lemma foldl_step_no_match (id : Int) (nm : String) (pid : Int) (l : List RawBone)
    (acc : Option JsBone) (h : ∀ b ∈ l, b.ID ≠ pid) :
    l.foldl (buildSkeletonStep id nm pid) acc = acc := by
  induction l generalizing acc with
  | nil => rfl
  | cons b bs ih =>
    simp only [List.foldl_cons]
    rw [show buildSkeletonStep id nm pid acc b = acc from by
      simp [buildSkeletonStep, h b (by simp)]]
    exact ih _ (fun x hx => h x (by simp [hx]))

lemma foldl_step_single (id : Int) (nm : String) (pid : Int)
    (pre post : List RawBone) (rb : RawBone) (acc : Option JsBone)
    (hpre : ∀ b ∈ pre, b.ID ≠ pid) (hpost : ∀ b ∈ post, b.ID ≠ pid)
    (hrb : rb.ID = pid) :
    (pre ++ rb :: post).foldl (buildSkeletonStep id nm pid) acc =
      some (.mk id nm rb.transformLink (acc.elim [] (fun sb => [sb]))) := by
  rw [List.foldl_append, foldl_step_no_match id nm pid pre acc hpre]
  simp only [List.foldl_cons]
  rw [show buildSkeletonStep id nm pid acc rb =
      some (.mk id nm rb.transformLink (acc.elim [] (fun sb => [sb]))) from by
    simp [buildSkeletonStep, hrb]]
  exact foldl_step_no_match id nm pid post _ hpost

/-- C4: (a) a Skin deformer whose connection children include exactly n
Cluster nodes (and whose children all resolve, Clusters carrying their
matrices and weights) produces exactly the raw bones of those n Cluster
children in connection order; (b) when one raw-bone ID is matched once in
each of two skeletons by the bone-building pass, two Bone nodes are
constructed and the earlier one becomes the single child of the later one
(shared-bone duplication). -/
theorem c4_skin_skeleton_and_shared_bones (children : List ConnEdge)
    (dn : Int → Option DeformerNode)
    (san : String → String) (pid : Int) (rel : Option String) (id : Int)
    (name : Option String) (s1a s1b s2a s2b : List RawBone) (rb1 rb2 : RawBone)
    (hres : children.all (clusterChildOk dn))
    (hrb1 : rb1.ID = pid) (hrb2 : rb2.ID = pid)
    (hs1 : ∀ b ∈ s1a ++ s1b, b.ID ≠ pid) (hs2 : ∀ b ∈ s2a ++ s2b, b.ID ≠ pid) :
    (parseSkeleton children dn = .ok (children.filterMap (rawBoneOf dn)) ∧
      (children.filterMap (rawBoneOf dn)).length =
        children.countP (isClusterChild dn)) ∧
    buildSkeleton san [⟨pid, rel⟩] [s1a ++ rb1 :: s1b, s2a ++ rb2 :: s2b] id name =
      some (.mk id (jsNameOrEmpty san name) rb2.transformLink
        [.mk id (jsNameOrEmpty san name) rb1.transformLink []]) := by
  refine ⟨⟨parseSkeleton_ok children dn hres, ?_⟩, ?_⟩
  · rw [length_filterMap_eq_countP]
    exact List.countP_congr (fun ch _ => by rw [rawBoneOf_isSome])
  · have hs1a : ∀ b ∈ s1a, b.ID ≠ pid := fun b hb => hs1 b (by simp [hb])
    have hs1b : ∀ b ∈ s1b, b.ID ≠ pid := fun b hb => hs1 b (by simp [hb])
    have hs2a : ∀ b ∈ s2a, b.ID ≠ pid := fun b hb => hs2 b (by simp [hb])
    have hs2b : ∀ b ∈ s2b, b.ID ≠ pid := fun b hb => hs2 b (by simp [hb])
    unfold buildSkeleton
    simp only [List.foldl_cons, List.foldl_nil]
    rw [foldl_step_single id (jsNameOrEmpty san name) pid s1a s1b rb1 none hs1a hs1b hrb1]
    rw [foldl_step_single id (jsNameOrEmpty san name) pid s2a s2b rb2 _ hs2a hs2b hrb2]
    rfl

/-- Witness for C4: a Skin deformer with two Cluster children 20 and 21, and a
bone ID 20 matched once in each of two one-bone skeletons. -/
theorem c4_skin_skeleton_and_shared_bones_witness :
    (parseSkeleton [⟨20, none⟩, ⟨21, none⟩]
        (fun k => if k = 20 ∨ k = 21
          then some ⟨k, none, "Cluster", some [1], none, none, none, none⟩
          else none) =
      .ok ([⟨20, none⟩, ⟨21, none⟩].filterMap
        (rawBoneOf (fun k => if k = 20 ∨ k = 21
          then some ⟨k, none, "Cluster", some [1], none, none, none, none⟩
          else none))) ∧
      ([⟨20, none⟩, ⟨21, none⟩].filterMap
        (rawBoneOf (fun k => if k = 20 ∨ k = 21
          then some ⟨k, none, "Cluster", some [1], none, none, none, none⟩
          else none))).length =
        [(⟨20, none⟩ : ConnEdge), ⟨21, none⟩].countP
          (isClusterChild (fun k => if k = 20 ∨ k = 21
            then some ⟨k, none, "Cluster", some [1], none, none, none, none⟩
            else none))) ∧
    buildSkeleton (fun s => s) [⟨20, none⟩]
        [[⟨20, [], [], [1]⟩], [⟨20, [], [], [2]⟩]] 7 (some ("joint")) =
      some (.mk 7 (jsNameOrEmpty (fun s => s) (some ("joint"))) [2]
        [.mk 7 (jsNameOrEmpty (fun s => s) (some ("joint"))) [1] []]) :=
  c4_skin_skeleton_and_shared_bones [⟨20, none⟩, ⟨21, none⟩]
    (fun k => if k = 20 ∨ k = 21
      then some ⟨k, none, "Cluster", some [1], none, none, none, none⟩
      else none)
    (fun s => s) 20 none 7 (some ("joint")) [] [] [] [] ⟨20, [], [], [1]⟩ ⟨20, [], [], [2]⟩
    (by decide) (by decide) (by decide) (by decide) (by decide)

/-- JS String.prototype.toLowerCase, modelled character-wise (the loader only
compares against plain ASCII keywords). -/
def jsToLower (s : String) : String := ⟨s.data.map Char.toLower⟩

/-- The ShadingModel property of a Material node: either a plain string or
wrapped in a property object whose `.value` may itself be absent. -/
inductive ShadingModelProp where
  | direct (s : String)
  | wrapped (value : Option String)
deriving DecidableEq, Repr

/-- JS `if (typeof type === 'object') type = type.value` (FBXLoader.ts
349-354). -/
def shadingModelValue : Option ShadingModelProp → Option String
  | none => none
  | some (.direct s) => some s
  | some (.wrapped v) => v

/-- Entry of FBXTree.Objects.Material with the fields the registry skip logic
reads; the parameter bag read by parseParameters is handled abstractly. -/
structure MaterialNode where
  id : Int
  attrName : Option String
  shadingModel : Option ShadingModelProp
deriving DecidableEq, Repr

/-- Shading family chosen by the switch at FBXLoader.ts 363-374; unknown
model names warn and fall back to the Phong family. -/
inductive MaterialKind where
  | phong
  | lambert
deriving DecidableEq, Repr

/-- Constructed three.js material value.  P is the type of the parameter bag
assembled by parseParameters (FBXLoader.ts 390-508), which resolves texture
channels and is independent of the registry skip decision verified here, so
it stays an abstract collaborator. -/
structure JsMaterial (P : Type) where
  kind : MaterialKind
  name : Option String
  params : P

/-- FBXTreeParser.parseMaterial (FBXLoader.ts 346-380): materials without any
connection-graph entry are dropped (`return null`) before parameters are
parsed; otherwise the shading model string is lower-cased and dispatched. -/
def parseMaterial {P : Type} (pp : MaterialNode → Except JsError P)
    (conns : ConnectionMap) (node : MaterialNode) :
    Except JsError (Option (JsMaterial P)) :=
  let type := shadingModelValue node.shadingModel
  if (conns node.id).isNone then .ok none
  else
    match pp node with
    | .error e => .error e
    | .ok params =>
      match type with
      | none => .error .typeError
      | some t =>
        let kind :=
          if jsToLower t = "phong" then MaterialKind.phong
          else if jsToLower t = "lambert" then MaterialKind.lambert
          else MaterialKind.phong
        .ok (some ⟨kind, node.attrName, params⟩)

/-- FBXTreeParser.parseMaterials (FBXLoader.ts 321-336): iterate the Material
nodes, keeping only non-null results, keyed by the node key. -/
def parseMaterials {P : Type} (pp : MaterialNode → Except JsError P)
    (conns : ConnectionMap) (nodes : List (Int × MaterialNode)) :
    Except JsError (Int → Option (JsMaterial P)) :=
  nodes.foldlM
    (fun acc kn =>
      (parseMaterial pp conns kn.2).map
        (fun res =>
          match res with
          | none => acc
          | some m => fun q => if q = kn.1 then some m else acc q))
    (fun _ => none)

lemma parseMaterial_orphan {P : Type} (pp : MaterialNode → Except JsError P)
    (conns : ConnectionMap) (node : MaterialNode) (h : conns node.id = none) :
    parseMaterial pp conns node = .ok none := by
  simp [parseMaterial, h]

lemma parseMaterials_go_orphan {P : Type} (pp : MaterialNode → Except JsError P)
    (conns : ConnectionMap) (id : Int)
    (nodes : List (Int × MaterialNode)) (acc : Int → Option (JsMaterial P))
    (m : Int → Option (JsMaterial P))
    (hids : ∀ kn ∈ nodes, kn.1 = (kn.2 : MaterialNode).id)
    (horphan : conns id = none) (hacc : acc id = none)
    (hok : nodes.foldlM
      (fun acc kn =>
        (parseMaterial pp conns kn.2).map
          (fun res =>
            match res with
            | none => acc
            | some mm => fun q => if q = kn.1 then some mm else acc q))
      acc = .ok m) :
    m id = none := by
  induction nodes generalizing acc with
  | nil =>
    simp only [List.foldlM_nil] at hok
    cases hok
    exact hacc
  | cons kn rest ih =>
    simp only [List.foldlM_cons] at hok
    cases hpm : parseMaterial pp conns kn.2 with
    | error e =>
      rw [hpm] at hok
      exact Except.noConfusion hok
    | ok res =>
      simp only [hpm, Except.map, Except.bind] at hok
      cases res with
      | none =>
        exact ih _ (fun x hx => hids x (by simp [hx])) hacc hok
      | some mm =>
        have hkey : ¬ id = kn.1 := by
          intro heq
          have : kn.2.id = id := (hids kn (by simp)).symm.trans heq.symm
          rw [parseMaterial_orphan pp conns kn.2 (this ▸ horphan)] at hpm
          cases hpm
        refine ih _ (fun x hx => hids x (by simp [hx])) ?_ hok
        simp [hkey, hacc]

/-- C5: a Material node whose object ID has no entry in the connection graph
is never present in the output material registry, for every parameter
collaborator, connection graph and Material section (assuming the catalog is
keyed consistently, i.e. each node is stored under its own ID). -/
theorem c5_orphan_material_not_registered {P : Type}
    (pp : MaterialNode → Except JsError P) (conns : ConnectionMap)
    (nodes : List (Int × MaterialNode)) (id : Int)
    (m : Int → Option (JsMaterial P))
    (hids : ∀ kn ∈ nodes, kn.1 = (kn.2 : MaterialNode).id)
    (horphan : conns id = none)
    (hok : parseMaterials pp conns nodes = .ok m) :
    m id = none :=
  parseMaterials_go_orphan pp conns id nodes (fun _ => none) m hids horphan rfl hok

/-- Witness for C5: material node 5 has no connection entry while node 6 does;
the registry maps 5 to nothing. -/
theorem c5_orphan_material_not_registered_witness :
    ∃ m, parseMaterials (P := Unit) (fun _ => .ok ())
        (fun k => if k = 6 then some emptyRelationships else none)
        [(5, ⟨5, none, some (.direct ("phong"))⟩),
         (6, ⟨6, none, some (.direct ("phong"))⟩)] = .ok m ∧
      m 5 = none := by
  have hok : parseMaterials (P := Unit) (fun _ => .ok ())
      (fun k => if k = 6 then some emptyRelationships else none)
      [(5, ⟨5, none, some (.direct ("phong"))⟩),
       (6, ⟨6, none, some (.direct ("phong"))⟩)] =
      .ok (fun q => if q = 6 then some ⟨MaterialKind.phong, none, ()⟩ else none) := rfl
  exact ⟨_, hok,
    c5_orphan_material_not_registered (fun _ => .ok ())
      (fun k => if k = 6 then some emptyRelationships else none)
      [(5, ⟨5, none, some (.direct ("phong"))⟩),
       (6, ⟨6, none, some (.direct ("phong"))⟩)] 5 _ (by decide) rfl hok⟩

/-- Geometry entry of the collaborator geometry registry, reduced to the two
observations createMesh makes: a color vertex attribute and an FBX_Deformer
linkage. -/
structure JsGeometry where
  hasColorAttribute : Bool
  hasDeformer : Bool
deriving DecidableEq, Repr

/-- A material assigned to a mesh: either a reference into the material
registry (identified by the connection-child ID it was fetched under) or the
default gray MeshPhongMaterial({ color: 0xcccccc }). -/
inductive MeshMaterial where
  | fromRegistry (id : Int)
  | defaultGray
deriving DecidableEq, Repr

/-- A mesh material slot is either one material or a material list. -/
inductive MaterialAssignment where
  | single (m : MeshMaterial)
  | multi (ms : List MeshMaterial)
deriving DecidableEq, Repr

/-- Constructed surface node: Mesh or SkinnedMesh plus its material slot.
The vertexColors / skinning flag writes mutate the shared registry material
objects and are not observed by any claim. -/
structure MeshModel where
  skinned : Bool
  material : MaterialAssignment
deriving DecidableEq, Repr

/-- Geometry selection inside the children loop of createMesh (FBXLoader.ts
989-997): every child found in the geometry registry overwrites the local,
so the last resolving child wins. -/
def pickGeometry (children : List ConnEdge) (geometryMap : Int → Option JsGeometry) :
    Option JsGeometry :=
  children.foldl (fun g ch => (geometryMap ch.ID).elim g some) none

/-- Material collection inside the same loop: every child found in the
material registry is pushed, in connection order. -/
def meshMaterials (children : List ConnEdge) (materialKeys : Int → Bool) :
    List MeshMaterial :=
  children.filterMap
    (fun ch => if materialKeys ch.ID then some (.fromRegistry ch.ID) else none)

/-- FBXTreeParser.createMesh (FBXLoader.ts 982-1026).  When no child resolves
in the geometry registry the local `geometry` stays null and the later read
`'color' in geometry.attributes` is a TypeError.  More than one collected
material gives a list, exactly one gives that material, none gives a fresh
default gray material. -/
def createMesh (children : List ConnEdge) (geometryMap : Int → Option JsGeometry)
    (materialKeys : Int → Bool) : Except JsError MeshModel :=
  let materials := meshMaterials children materialKeys
  match pickGeometry children geometryMap with
  | none => .error .typeError
  | some geo =>
    let assign : MaterialAssignment :=
      if materials.length > 1 then .multi materials
      else
        match materials with
        | [m] => .single m
        | _ => .single .defaultGray
    .ok ⟨geo.hasDeformer, assign⟩

/-- C6: for a Mesh model whose geometry child resolves, two registry materials
among the connection children give a two-element material list in connection
order (meshMaterials is the in-order projection of the children); zero give
a single default gray material; exactly one gives that single material. -/
theorem c6_mesh_material_assignment (children : List ConnEdge)
    (geometryMap : Int → Option JsGeometry) (materialKeys : Int → Bool)
    (hgeo : (pickGeometry children geometryMap).isSome) :
    (∀ a b, meshMaterials children materialKeys = [a, b] →
      ∃ r, createMesh children geometryMap materialKeys = .ok r ∧
        r.material = .multi [a, b]) ∧
    (meshMaterials children materialKeys = [] →
      ∃ r, createMesh children geometryMap materialKeys = .ok r ∧
        r.material = .single .defaultGray) ∧
    (∀ a, meshMaterials children materialKeys = [a] →
      ∃ r, createMesh children geometryMap materialKeys = .ok r ∧
        r.material = .single a) := by
  cases hg : pickGeometry children geometryMap with
  | none => rw [hg] at hgeo; cases hgeo
  | some geo =>
    refine ⟨?_, ?_, ?_⟩
    · intro a b hms
      exact ⟨⟨geo.hasDeformer, .multi [a, b]⟩, by simp [createMesh, hg, hms], rfl⟩
    · intro hms
      exact ⟨⟨geo.hasDeformer, .single .defaultGray⟩, by simp [createMesh, hg, hms], rfl⟩
    · intro a hms
      exact ⟨⟨geo.hasDeformer, .single a⟩, by simp [createMesh, hg, hms], rfl⟩

/-- Witness for C6: a mesh with geometry child 100 and material children 40
and 41 (in that connection order) gets the ordered two-element list. -/
theorem c6_mesh_material_assignment_witness :
    ∃ r, createMesh [⟨100, none⟩, ⟨40, none⟩, ⟨41, none⟩]
        (fun k => if k = 100 then some ⟨false, false⟩ else none)
        (fun k => k = 40 || k = 41) = .ok r ∧
      r.material = .multi [.fromRegistry 40, .fromRegistry 41] :=
  (c6_mesh_material_assignment [⟨100, none⟩, ⟨40, none⟩, ⟨41, none⟩]
      (fun k => if k = 100 then some ⟨false, false⟩ else none)
      (fun k => k = 40 || k = 41) (by decide)).1
    (.fromRegistry 40) (.fromRegistry 41) (by decide)

/-- Modelled from the spec: the format sniffer helpers called by
FBXLoader.parse (isFbxFormatBinary, convertArrayBufferToString,
isFbxFormatASCII, getFbxVersion) are declared outside src/.  Spec section 4.1
says binary input is detected by a fixed magic header, ASCII input must
contain a recognizable top-level marker, and a numeric FileVersion is
extracted from the header; a raw input buffer is therefore abstracted by
exactly these three observations. -/
structure RawFBXBuffer where
  hasBinaryMagic : Bool
  hasAsciiMarker : Bool
  fileVersion : Nat
deriving DecidableEq, Repr

/-- Modelled from the spec: binary detection by magic header. -/
def isFbxFormatBinary (b : RawFBXBuffer) : Bool := b.hasBinaryMagic

/-- Modelled from the spec: ASCII detection by top-level marker. -/
def isFbxFormatASCII (b : RawFBXBuffer) : Bool := b.hasAsciiMarker

/-- Modelled from the spec: FileVersion extraction from the header. -/
def getFbxVersion (b : RawFBXBuffer) : Nat := b.fileVersion

/-- Errors thrown at the decoder boundary of FBXLoader.parse. -/
inductive LoaderError where
  | formatError
  | unsupportedVersion (v : Nat)
deriving DecidableEq, Repr

/-- FBXLoader.parse (FBXLoader.ts 1280-1304): binary inputs go to the binary
decoder; otherwise an input without the ASCII marker throws the unknown
format error, an ASCII input with version below 7000 throws the unsupported
version error, and only then is the text decoded and the scene built.  The
downstream decoding and scene construction (BinaryParser, TextParser,
FBXTreeParser, all outside the verified paths) are abstract continuations;
a thrown error aborts parse with no partial scene by construction. -/
def fbxLoaderParse {S : Type} (binaryRest asciiRest : RawFBXBuffer → Except LoaderError S)
    (b : RawFBXBuffer) : Except LoaderError S :=
  if isFbxFormatBinary b then binaryRest b
  else if !isFbxFormatASCII b then .error .formatError
  else if getFbxVersion b < 7000 then .error (.unsupportedVersion (getFbxVersion b))
  else asciiRest b

/-- C7: a non-binary buffer recognized as ASCII FBX with FileVersion below
7000 (e.g. 6000) makes parse throw the unsupported-version error, and a text
buffer with neither binary magic nor ASCII marker makes parse throw the
format error; in both cases the result is an error value, never a (partial)
scene, whatever the downstream decoders would do. -/
theorem c7_version_and_format_errors {S : Type}
    (binaryRest asciiRest : RawFBXBuffer → Except LoaderError S)
    (b : RawFBXBuffer) (hbin : b.hasBinaryMagic = false) :
    (b.hasAsciiMarker = true → b.fileVersion < 7000 →
      fbxLoaderParse binaryRest asciiRest b =
        .error (.unsupportedVersion b.fileVersion)) ∧
    (b.hasAsciiMarker = false →
      fbxLoaderParse binaryRest asciiRest b = .error .formatError) := by
  constructor
  · intro hmark hver
    simp [fbxLoaderParse, isFbxFormatBinary, isFbxFormatASCII, getFbxVersion,
      hbin, hmark, hver]
  · intro hmark
    simp [fbxLoaderParse, isFbxFormatBinary, isFbxFormatASCII, hbin, hmark]

/-- Witness for C7: an ASCII buffer declaring version 6000 fails with the
unsupported-version error. -/
theorem c7_version_and_format_errors_witness :
    fbxLoaderParse (S := Unit) (fun _ => .ok ()) (fun _ => .ok ())
      ⟨false, true, 6000⟩ = .error (.unsupportedVersion 6000) :=
  (c7_version_and_format_errors (fun _ => .ok ()) (fun _ => .ok ())
    ⟨false, true, 6000⟩ rfl).1 rfl (by decide)

/-- Entry of FBXTree.Objects.Texture with the fields read by parseTexture and
loadTexture; WrapModeU / WrapModeV carry the `.value` of the property when
present. -/
structure TextureNode where
  id : Int
  attrName : Option String
  wrapModeU : Option Int
  wrapModeV : Option Int
  scaling : Option (Rat × Rat)
  fileName : Option String
deriving DecidableEq, Repr

/-- three.js wrap constants used at FBXLoader.ts 253-254. -/
inductive WrapMode where
  | repeatWrapping
  | clampToEdgeWrapping
deriving DecidableEq, Repr

/-- Texture object produced by loadTexture: a placeholder (missing TGA
handler / PSD) or a texture loaded from the resolved file name (none when no
image child resolved). -/
inductive TextureSource where
  | placeholder
  | loaded (fileName : Option String)
deriving DecidableEq, Repr

/-- Texture value returned by parseTexture after the wrap / repeat fields are
set on the loaded object. -/
structure ParsedTexture where
  source : TextureSource
  ID : Int
  name : Option String
  wrapS : WrapMode
  wrapT : WrapMode
  repeatUV : Option (Rat × Rat)
deriving DecidableEq, Repr

/-- JS String.prototype.slice(-3): the last three characters (the whole
string when shorter). -/
def jsSliceLast3 (s : String) : String := ⟨s.data.drop (s.data.length - 3)⟩

/-- FBXTreeParser.loadTexture (FBXLoader.ts 272-314): the file name comes from
the image registry entry of the first connection child when defined; a
texture node absent from the connection graph makes
`connections.get(textureNode.id).children` a read on undefined, and a
missing FileName breaks `textureNode.FileName.slice(-3)`.  TGA files load
through the optional TGA handler (placeholder when absent), PSD always gets
a placeholder.  The setPath juggling only affects the external loader. -/
def loadTexture (conns : ConnectionMap) (images : Int → Option String)
    (hasTGAHandler : Bool) (node : TextureNode) : Except JsError TextureSource :=
  match conns node.id with
  | none => .error .typeError
  | some rel =>
    let fileName : Option String :=
      match rel.children.head? with
      | some ch => images ch.ID
      | none => none
    match node.fileName with
    | none => .error .typeError
    | some fn =>
      let extension := jsToLower (jsSliceLast3 fn)
      if extension = "tga" then
        if hasTGAHandler then .ok (.loaded fileName) else .ok .placeholder
      else if extension = "psd" then .ok .placeholder
      else .ok (.loaded fileName)

/-- FBXTreeParser.parseTexture (FBXLoader.ts 238-264): wrap values default to
0 when the node has no WrapModeU / WrapModeV, and value 0 maps to
RepeatWrapping, anything else to ClampToEdgeWrapping; Scaling, when present,
is copied to repeat. -/
def parseTexture (conns : ConnectionMap) (images : Int → Option String)
    (hasTGAHandler : Bool) (node : TextureNode) : Except JsError ParsedTexture :=
  (loadTexture conns images hasTGAHandler node).map
    (fun t =>
      let valueU := node.wrapModeU.getD 0
      let valueV := node.wrapModeV.getD 0
      { source := t
        ID := node.id
        name := node.attrName
        wrapS := if valueU = 0 then .repeatWrapping else .clampToEdgeWrapping
        wrapT := if valueV = 0 then .repeatWrapping else .clampToEdgeWrapping
        repeatUV := node.scaling })

/-- C8: for a texture node that loads (its ID is in the connection graph and
it has a FileName), the wrap modes are a function of WrapModeU / WrapModeV
alone: a missing wrap field or value 0 gives RepeatWrapping and value 1
gives ClampToEdgeWrapping, on each axis independently. -/
theorem c8_texture_wrap_modes (conns : ConnectionMap) (images : Int → Option String)
    (hasTGAHandler : Bool) (node : TextureNode) (rel : Relationships)
    (fn : String) (hconn : conns node.id = some rel)
    (hfile : node.fileName = some fn) :
    ∃ t, parseTexture conns images hasTGAHandler node = .ok t ∧
      ((node.wrapModeU = none ∨ node.wrapModeU = some 0) →
        t.wrapS = .repeatWrapping) ∧
      (node.wrapModeU = some 1 → t.wrapS = .clampToEdgeWrapping) ∧
      ((node.wrapModeV = none ∨ node.wrapModeV = some 0) →
        t.wrapT = .repeatWrapping) ∧
      (node.wrapModeV = some 1 → t.wrapT = .clampToEdgeWrapping) := by
  have hload : ∃ src, loadTexture conns images hasTGAHandler node = .ok src := by
    unfold loadTexture
    rw [hconn, hfile]
    by_cases htga : jsToLower (jsSliceLast3 fn) = "tga"
    · cases hasTGAHandler <;> simp [htga]
    · by_cases hpsd : jsToLower (jsSliceLast3 fn) = "psd" <;> simp [htga, hpsd]
  obtain ⟨src, hsrc⟩ := hload
  have hpt : parseTexture conns images hasTGAHandler node = .ok
      { source := src
        ID := node.id
        name := node.attrName
        wrapS :=
          if node.wrapModeU.getD 0 = 0 then .repeatWrapping else .clampToEdgeWrapping
        wrapT :=
          if node.wrapModeV.getD 0 = 0 then .repeatWrapping else .clampToEdgeWrapping
        repeatUV := node.scaling } := by
    simp [parseTexture, hsrc, Except.map]
  refine ⟨_, hpt, ?_, ?_, ?_, ?_⟩
  · rintro (h | h) <;> simp [h]
  · intro h; simp [h]
  · rintro (h | h) <;> simp [h]
  · intro h; simp [h]

/-- Witness for C8: WrapModeU = 1 and WrapModeV = 0 yield (clamp, repeat). -/
theorem c8_texture_wrap_modes_witness :
    ∃ t, parseTexture (fun k => if k = 30 then some emptyRelationships else none)
        (fun _ => none) false
        ⟨30, none, some 1, some 0, none, some ("tex.png")⟩ = .ok t ∧
      (((⟨30, none, some 1, some 0, none, some ("tex.png")⟩ : TextureNode).wrapModeU = none ∨
          (⟨30, none, some 1, some 0, none, some ("tex.png")⟩ : TextureNode).wrapModeU = some 0) →
        t.wrapS = .repeatWrapping) ∧
      ((⟨30, none, some 1, some 0, none, some ("tex.png")⟩ : TextureNode).wrapModeU = some 1 →
        t.wrapS = .clampToEdgeWrapping) ∧
      (((⟨30, none, some 1, some 0, none, some ("tex.png")⟩ : TextureNode).wrapModeV = none ∨
          (⟨30, none, some 1, some 0, none, some ("tex.png")⟩ : TextureNode).wrapModeV = some 0) →
        t.wrapT = .repeatWrapping) ∧
      ((⟨30, none, some 1, some 0, none, some ("tex.png")⟩ : TextureNode).wrapModeV = some 1 →
        t.wrapT = .clampToEdgeWrapping) :=
  c8_texture_wrap_modes (fun k => if k = 30 then some emptyRelationships else none)
    (fun _ => none) false ⟨30, none, some 1, some 0, none, some ("tex.png")⟩
    emptyRelationships ("tex.png") rfl rfl

/-- Raw morph target built per BlendShapeChannel child (FBXLoader.ts
629-640). -/
structure RawMorphTarget where
  name : Option String
  initialWeight : Option Rat
  id : Int
  fullWeights : List Rat
  geoID : Int
deriving DecidableEq, Repr

/-- FBXTreeParser.parseMorphTargets (FBXLoader.ts 621-646).  Each child is
resolved in the Deformer catalog, its record (including `FullWeights.a`) is
read BEFORE the attrType check, and a child whose attrType is not
BlendShapeChannel makes the whole function `return` - i.e. yield undefined
(`.ok none`), dropping every target pushed so far and every later child.
The geometry ID is the first relationship-free connection child of the
channel; a channel with no such child breaks at `[0].ID`. -/
def parseMorphTargets (children : List ConnEdge)
    (deformerNodes : Int → Option DeformerNode) (conns : ConnectionMap) :
    Except JsError (Option (List RawMorphTarget)) :=
  match children with
  | [] => .ok (some [])
  | child :: rest =>
    match deformerNodes child.ID with
    | none => .error .typeError
    | some node =>
      match node.fullWeights with
      | none => .error .typeError
      | some fw =>
        if node.attrType ≠ "BlendShapeChannel" then .ok none
        else
          match conns child.ID with
          | none => .error .typeError
          | some rel =>
            match (rel.children.filter (fun c => c.relationship.isNone)).head? with
            | none => .error .typeError
            | some geo =>
              (parseMorphTargets rest deformerNodes conns).map
                (fun res => res.map
                  (fun ts => ⟨node.attrName, node.deformPercent, node.id, fw, geo.ID⟩ :: ts))

/-- Well-formedness of one valid channel child: it resolves to a
BlendShapeChannel deformer carrying FullWeights, and its connection entry
has a relationship-free child (the geometry back-reference). -/
def validChannelChild (dn : Int → Option DeformerNode) (conns : ConnectionMap)
    (ch : ConnEdge) : Bool :=
  match dn ch.ID with
  | none => false
  | some n =>
    n.fullWeights.isSome && (n.attrType == "BlendShapeChannel") &&
      (match conns ch.ID with
       | none => false
       | some rel => ((rel.children.filter (fun c => c.relationship.isNone)).head?).isSome)

/-- C9: if any connection child of a BlendShape deformer resolves to a
deformer node that carries its weight data but is NOT a BlendShapeChannel,
parseMorphTargets returns undefined (.ok none) for the whole deformer —
discarding every earlier valid channel and every later child — instead of
skipping only the offending child. -/
theorem c9_bad_channel_discards_all (pre post : List ConnEdge)
    (dn : Int → Option DeformerNode) (conns : ConnectionMap) (bad : ConnEdge)
    (n : DeformerNode)
    (hpre : pre.all (validChannelChild dn conns))
    (hbad : dn bad.ID = some n) (hfw : n.fullWeights.isSome)
    (hty : n.attrType ≠ "BlendShapeChannel") :
    parseMorphTargets (pre ++ bad :: post) dn conns = .ok none := by
  induction pre with
  | nil =>
    cases hfwc : n.fullWeights with
    | none => rw [hfwc] at hfw; cases hfw
    | some fw => simp [parseMorphTargets, hbad, hfwc, hty]
  | cons p ps ih =>
    simp only [List.all_cons, Bool.and_eq_true] at hpre
    obtain ⟨hp, hps⟩ := hpre
    unfold validChannelChild at hp
    cases hdn : dn p.ID with
    | none => rw [hdn] at hp; cases hp
    | some pn =>
      rw [hdn] at hp
      simp only [Bool.and_eq_true, beq_iff_eq] at hp
      obtain ⟨⟨hpfw, hpty⟩, hpgeo⟩ := hp
      cases hpfwc : pn.fullWeights with
      | none => rw [hpfwc] at hpfw; cases hpfw
      | some pfw =>
        cases hpconn : conns p.ID with
        | none => simp [hpconn] at hpgeo
        | some prel =>
          simp only [hpconn] at hpgeo
          cases hphead : (prel.children.filter (fun c => c.relationship.isNone)).head? with
          | none => simp [hphead] at hpgeo
          | some geo =>
            have ihr := ih hps
            simp [parseMorphTargets, hdn, hpfwc, hpty, hpconn, hphead, ihr,
              Except.map, List.cons_append]

/-- Witness for C9: a BlendShape deformer with a valid channel child 50
followed by a Cluster-typed child 51 (carrying FullWeights) yields undefined,
dropping the valid channel. -/
theorem c9_bad_channel_discards_all_witness :
    parseMorphTargets [⟨50, none⟩, ⟨51, none⟩]
      (fun k =>
        if k = 50 then some ⟨50, none, "BlendShapeChannel", none, none, none, some [1], none⟩
        else if k = 51 then some ⟨51, none, "Cluster", none, none, none, some [1], none⟩
        else none)
      (fun k => if k = 50 then some ⟨[], [⟨90, none⟩]⟩ else none) = .ok none :=
  c9_bad_channel_discards_all [⟨50, none⟩] [] 
    (fun k =>
      if k = 50 then some ⟨50, none, "BlendShapeChannel", none, none, none, some [1], none⟩
      else if k = 51 then some ⟨51, none, "Cluster", none, none, none, some [1], none⟩
      else none)
    (fun k => if k = 50 then some ⟨[], [⟨90, none⟩]⟩ else none)
    ⟨51, none⟩ ⟨51, none, "Cluster", none, none, none, some [1], none⟩
    (by decide) (by decide) (by decide) (by decide)

/-- Skeleton record stored in the deformer registry (FBXLoader.ts 543-552):
ID of the Skin deformer, the geometry parent recorded from `parents[0].ID`,
and the raw bones (the joint list starts empty). -/
structure FBXSkeleton where
  ID : Int
  geometryID : Int
  rawBones : List RawBone
deriving DecidableEq, Repr

/-- Morph target record stored in the deformer registry (FBXLoader.ts
553-565); rawTargets is undefined (`none`) when parseMorphTargets bailed
out. -/
structure MorphTargetRecord where
  id : Int
  rawTargets : Option (List RawMorphTarget)
deriving DecidableEq, Repr

/-- Return value of parseDeformers. -/
structure DeformersResult where
  skeletons : List (Int × FBXSkeleton)
  morphTargets : List (Int × MorphTargetRecord)
deriving DecidableEq, Repr

/-- Lookup in the Deformer catalog object (`DeformerNodes[child.ID]`). -/
def deformerLookup (nodes : List (Int × DeformerNode)) : Int → Option DeformerNode :=
  fun id => (nodes.find? (fun kn => kn.1 == id)).map (fun kn => kn.2)

/-- FBXTreeParser.parseDeformers (FBXLoader.ts 531-574), iterating the
Deformer catalog entries in key order.  For a Skin deformer the code calls
parseSkeleton, warns (without failing) when there is more than one
connection parent, and then reads `relationships.parents[0].ID` without any
guard, so an empty parents list is a TypeError.  A deformer ID absent from
the connection graph makes parseSkeleton / parseMorphTargets read the
children of undefined. -/
def parseDeformersGo (allNodes : List (Int × DeformerNode)) (conns : ConnectionMap) :
    List (Int × DeformerNode) → Except JsError DeformersResult
  | [] => .ok ⟨[], []⟩
  | kn :: rest =>
    if kn.2.attrType = "Skin" then
      match conns kn.1 with
      | none => .error .typeError
      | some rel =>
        match parseSkeleton rel.children (deformerLookup allNodes) with
        | .error e => .error e
        | .ok rawBones =>
          match rel.parents.head? with
          | none => .error .typeError
          | some p =>
            (parseDeformersGo allNodes conns rest).map
              (fun r => ⟨(kn.1, ⟨kn.1, p.ID, rawBones⟩) :: r.skeletons, r.morphTargets⟩)
    else if kn.2.attrType = "BlendShape" then
      match conns kn.1 with
      | none => .error .typeError
      | some rel =>
        match parseMorphTargets rel.children (deformerLookup allNodes) conns with
        | .error e => .error e
        | .ok rts =>
          (parseDeformersGo allNodes conns rest).map
            (fun r => ⟨r.skeletons, (kn.1, ⟨kn.1, rts⟩) :: r.morphTargets⟩)
    else parseDeformersGo allNodes conns rest

def parseDeformers (nodes : List (Int × DeformerNode)) (conns : ConnectionMap) :
    Except JsError DeformersResult :=
  parseDeformersGo nodes conns nodes

lemma parseDeformersGo_error (allNodes : List (Int × DeformerNode))
    (conns : ConnectionMap) (id : Int) (node : DeformerNode) (rel : Relationships)
    (hty : node.attrType = "Skin") (hconn : conns id = some rel)
    (hpar : rel.parents = []) :
    ∀ l : List (Int × DeformerNode), (id, node) ∈ l →
      ∃ e, parseDeformersGo allNodes conns l = .error e := by
  intro l hmem
  induction l with
  | nil => cases hmem
  | cons kn rest ih =>
    rcases List.mem_cons.mp hmem with heq | hmem2
    · subst heq
      cases hsk : parseSkeleton rel.children (deformerLookup allNodes) with
      | error e => exact ⟨e, by simp [parseDeformersGo, hty, hconn, hsk]⟩
      | ok rb =>
        exact ⟨.typeError, by simp [parseDeformersGo, hty, hconn, hsk, hpar]⟩
    · obtain ⟨e, he⟩ := ih hmem2
      by_cases h1 : kn.2.attrType = "Skin"
      · cases hc : conns kn.1 with
        | none => exact ⟨.typeError, by simp [parseDeformersGo, h1, hc]⟩
        | some r =>
          cases hsk : parseSkeleton r.children (deformerLookup allNodes) with
          | error e2 => exact ⟨e2, by simp [parseDeformersGo, h1, hc, hsk]⟩
          | ok rb =>
            cases hh : r.parents.head? with
            | none => exact ⟨.typeError, by simp [parseDeformersGo, h1, hc, hsk, hh]⟩
            | some p =>
              exact ⟨e, by simp [parseDeformersGo, h1, hc, hsk, hh, he, Except.map]⟩
      · by_cases h2 : kn.2.attrType = "BlendShape"
        · cases hc : conns kn.1 with
          | none => exact ⟨.typeError, by simp [parseDeformersGo, h1, h2, hc]⟩
          | some r =>
            cases hmt : parseMorphTargets r.children (deformerLookup allNodes) conns with
            | error e2 => exact ⟨e2, by simp [parseDeformersGo, h1, h2, hc, hmt]⟩
            | ok rts =>
              exact ⟨e, by simp [parseDeformersGo, h1, h2, hc, hmt, he, Except.map]⟩
        · exact ⟨e, by simp [parseDeformersGo, h1, h2, he]⟩

/-- C10: a Skin deformer whose connection-graph entry has an empty parents
list makes the whole deformer-registry pass fail with a runtime error (the
unguarded `parents[0].ID` read), instead of recording the skeleton or
degrading with a warning; by contrast a Skin deformer with two connection
parents is accepted, recording only the first parent ID. -/
theorem c10_skin_zero_parents_crashes (nodes : List (Int × DeformerNode))
    (conns conns2 : ConnectionMap) (id id2 : Int) (node node2 : DeformerNode)
    (rel : Relationships) (p q : ConnEdge)
    (hmem : (id, node) ∈ nodes) (hty : node.attrType = "Skin")
    (hconn : conns id = some rel) (hpar : rel.parents = [])
    (hty2 : node2.attrType = "Skin") (hconn2 : conns2 id2 = some ⟨[p, q], []⟩) :
    (∃ e, parseDeformers nodes conns = .error e) ∧
      parseDeformers [(id2, node2)] conns2 = .ok ⟨[(id2, ⟨id2, p.ID, []⟩)], []⟩ := by
  constructor
  · exact parseDeformersGo_error nodes conns id node rel hty hconn hpar nodes hmem
  · simp [parseDeformers, parseDeformersGo, hty2, hconn2, parseSkeleton, Except.map]

/-- Witness for C10: a Skin deformer 80 with no connection parents crashes
the pass, while a Skin deformer 81 with two parents 90 and 91 succeeds with
geometryID 90. -/
theorem c10_skin_zero_parents_crashes_witness :
    (∃ e, parseDeformers [(80, ⟨80, none, "Skin", none, none, none, none, none⟩)]
        (fun k => if k = 80 then some ⟨[], []⟩ else none) = .error e) ∧
      parseDeformers [(81, ⟨81, none, "Skin", none, none, none, none, none⟩)]
        (fun k => if k = 81 then some ⟨[⟨90, none⟩, ⟨91, none⟩], []⟩ else none) =
        .ok ⟨[(81, ⟨81, 90, []⟩)], []⟩ :=
  c10_skin_zero_parents_crashes
    [(80, ⟨80, none, "Skin", none, none, none, none, none⟩)]
    (fun k => if k = 80 then some ⟨[], []⟩ else none)
    (fun k => if k = 81 then some ⟨[⟨90, none⟩, ⟨91, none⟩], []⟩ else none)
    80 81 ⟨80, none, "Skin", none, none, none, none, none⟩
    ⟨81, none, "Skin", none, none, none, none, none⟩
    ⟨[], []⟩ ⟨90, none⟩ ⟨91, none⟩
    (by decide) (by decide) (by decide) (by decide) (by decide) (by decide)
